import Mathlib

/-!
# Verification of the SharePoint access layer (`sig_sharepoint_app/sharepoint_api.py`)

Shallow embedding of the authenticated-session and resource-resolution layer of
the repository.  The remote document-management service is modelled as an
explicit state (`Remote`): a list of document libraries, each carrying a title
and the folders directly under its root.  Local-filesystem reads are an
association list (`LocalFS`).  Python exceptions are the `PyError` type;
falling off a `try` block with a caught exception corresponds to the
non-`error` branches below, and an uncaught exception is `Except.error`.

Conventions taken from the source:
  * `SharepointError` (imported in the source from a sibling `errors` module
    that is not part of this repository's sources) is the exception type the
    `except` clauses catch; per the spec (§7) it is the catch-all for failures
    surfaced by the remote service.
  * Python truthiness of strings/`None`/`bytes` is modelled by comparison with
    `""` / `Option.none` / the empty list of bytes.
-/

/-- Bytes of a file, as a list of byte values. -/
abbrev Bytes := List Nat

/-- The Python exceptions that the embedded code can raise or catch.
`sharepointError` is the `SharepointError` class caught by the source's
`except` clauses; `configError` stands for the plain `Exception` raised for
missing credentials; the others are builtin Python exceptions. -/
inductive PyError where
  | sharepointError (msg : String)
  | configError (msg : String)
  | attributeError (msg : String)
  | osError (msg : String)
  | keyError (key : String)
  | valueError (msg : String)
deriving Repr, DecidableEq

/-- Whether an exception is caught by `except SharepointError`. -/
def PyError.isSharepoint : PyError → Bool
  | .sharepointError _ => true
  | _ => false

/-- A folder directly under a document library's root.  The `id` field models
remote object identity, so that two folders with equal names are still
distinguishable handles. -/
structure Folder where
  id : Nat
  name : String
deriving Repr, DecidableEq

/-- A document library (a SharePoint `List` with the DocumentLibrary template):
its title, description, and the folders under its root folder. -/
structure Library where
  id : Nat
  title : String
  description : String
  rootFolders : List Folder
deriving Repr, DecidableEq

/-- The remote service state: all libraries of the site, plus a counter
providing fresh identities for newly created remote objects. -/
structure Remote where
  libraries : List Library
  nextId : Nat
deriving Repr, DecidableEq

/-- A remote file handle as returned by an upload. -/
structure SPFile where
  name : String
  content : Bytes
  folderId : Nat
deriving Repr, DecidableEq

/-- The local filesystem visible to `os.path` and `open`: a list of
(path, contents) pairs. -/
structure LocalFS where
  files : List (String × Bytes)
deriving Repr, DecidableEq

/-- Reading a local file: `some` contents when `os.path.exists` holds. -/
def LocalFS.read (fs : LocalFS) (path : String) : Option Bytes :=
  (fs.files.find? (fun e => e.1 = path)).map (fun e => e.2)

/-- Message of the `AttributeError` raised in Python when `.root_folder` is
accessed on the `None` returned by a failed library lookup. -/
def attrRootFolderMsg : String :=
  "NoneType object has no attribute root_folder"

/-- `SharepointAPI.get_document_library_from_name`:
`self.web.lists.filter(f"Title eq '{name}'").get().execute_query()`, then
`lists[0] if len(lists) == 1 else None`. -/
def get_document_library_from_name (r : Remote) (documentLibraryName : String) :
    Option Library :=
  let lists := r.libraries.filter (fun l => l.title = documentLibraryName)
  if lists.length = 1 then lists.head? else none

/-- `SharepointAPI.find_folder`: resolves the library by name, then filters the
root folder's children by `Name eq folder_name` and returns the single match,
else `None`.  When the library lookup yields `None`, the attribute access
`.root_folder` on it raises `AttributeError` (uncaught in the source).
The second component records the remote requests issued. -/
def find_folder (r : Remote) (documentLibraryName folderName : String) :
    Except PyError (Option Folder) × List String :=
  match get_document_library_from_name r documentLibraryName with
  | none =>
      (Except.error (PyError.attributeError attrRootFolderMsg), ["web.lists.filter"])
  | some lib =>
      let result := lib.rootFolders.filter (fun f => f.name = folderName)
      (Except.ok (if result.length = 1 then result.head? else none),
        ["web.lists.filter", "root_folder.folders.filter"])

/-- `root_folder.folders.add(folder_name)`: the remote service creates a fresh
folder under the root of the library with identity `libId` and returns it. -/
def addFolder (r : Remote) (libId : Nat) (folderName : String) : Folder × Remote :=
  let f : Folder := { id := r.nextId, name := folderName }
  (f,
    { libraries := r.libraries.map (fun l =>
        if l.id = libId then { l with rootFolders := l.rootFolders ++ [f] } else l),
      nextId := r.nextId + 1 })

/-- `SharepointAPI.create_folder`: `find_folder` first; if that yields `None`
(Python falsiness), resolve the library again and `folders.add` a new folder.
Errors of `find_folder` (the `AttributeError` on an absent library) propagate. -/
def create_folder (r : Remote) (documentLibraryName folderName : String) :
    Except PyError Folder × Remote × List String :=
  match find_folder r documentLibraryName folderName with
  | (Except.error e, log) => (Except.error e, r, log)
  | (Except.ok (some f), log) => (Except.ok f, r, log)
  | (Except.ok none, log) =>
      match get_document_library_from_name r documentLibraryName with
      | none =>
          (Except.error (PyError.attributeError attrRootFolderMsg), r,
            log ++ ["web.lists.filter"])
      | some lib =>
          let fr := addFolder r lib.id folderName
          (Except.ok fr.1, fr.2, log ++ ["web.lists.filter", "root_folder.folders.add"])

/-- `SharepointAPI.create_document_library`: find by name; if that yields
`None`, add a library built from `ListCreationInformation(name, description,
ListTemplateType.DocumentLibrary)` and return it. -/
def create_document_library (r : Remote) (documentLibraryName description : String) :
    Library × Remote :=
  match get_document_library_from_name r documentLibraryName with
  | some element => (element, r)
  | none =>
      let element : Library :=
        { id := r.nextId, title := documentLibraryName, description := description,
          rootFolders := [] }
      (element, { libraries := r.libraries ++ [element], nextId := r.nextId + 1 })

/-- An opaque handle for the web-root object fetched by the primary liveness
check of session construction. -/
structure Web where
  tag : Nat
deriving Repr, DecidableEq

/-- The authenticated client context, carrying the site URL it was built for. -/
structure ClientContext where
  url : String
deriving Repr, DecidableEq

/-- A constructed session: the immutable identifiers plus the opaque handles
(`ctx`, `web`) produced by `get_sharepoint_ctx`. -/
structure Session where
  site : String
  serverUrl : String
  completeUrl : String
  ctx : ClientContext
  web : Web
deriving Repr, DecidableEq

/-- `SharepointClientAccess.get_sharepoint_ctx`.  The two remote round trips
are oracles: `primary` is the outcome of `ctx.web.get().execute_query()`
(unguarded, so any failure propagates), `secondary` the outcome of
`ctx.site.get().execute_query()`, guarded by `except SharepointError`
(failure logged, swallowed; a non-`SharepointError` failure would propagate). -/
def get_sharepoint_ctx (completeUrl : String) (primary : Except PyError Web)
    (secondary : Except PyError Unit) : Except PyError (ClientContext × Web) :=
  let ctx : ClientContext := { url := completeUrl }
  match primary with
  | Except.error e => Except.error e
  | Except.ok web =>
      match secondary with
      | Except.ok _ => Except.ok (ctx, web)
      | Except.error e => if e.isSharepoint then Except.ok (ctx, web) else Except.error e

/-- An entry of the secrets file: `{"username": ..., "password": ...}`. -/
structure SecretsEntry where
  username : String
  password : String
deriving Repr, DecidableEq

/-- The exception message of the `raise Exception(...)` for missing
credentials (whitespace normalised). -/
def missingCredentialsMsg : String :=
  "Please provide client secrets information as a secrets.json or using the inputs client_secret and client_id"

/-- `SharepointClientAccess.__init__`.  `secrets` is the oracle for reading
and JSON-parsing the secrets file: it returns the `"sites"` mapping, or `none`
when the read/parse fails (`OSError`/decode error in Python); a missing site
key raises `KeyError`.  When `root_cred_path` is falsy and either credential
is falsy (empty), the plain `Exception` (modelled as `configError`) is raised
before any context is built; otherwise `get_sharepoint_ctx` runs with the
`primary`/`secondary` oracles. -/
def SharepointClientAccess.init (site serverUrl rootCredPath clientId clientSecret : String)
    (secrets : String → Option (List (String × SecretsEntry)))
    (primary : Except PyError Web) (secondary : Except PyError Unit) :
    Except PyError Session :=
  let completeUrl := serverUrl ++ "/sites/" ++ site
  let creds : Except PyError (String × String) :=
    if rootCredPath ≠ "" then
      match secrets rootCredPath with
      | none => Except.error (PyError.osError "unable to read or parse the secrets file")
      | some sites =>
          match (sites.find? (fun e => e.1 = site)).map (fun e => e.2) with
          | none => Except.error (PyError.keyError site)
          | some entry => Except.ok (entry.username, entry.password)
    else if clientId = "" ∨ clientSecret = "" then
      Except.error (PyError.configError missingCredentialsMsg)
    else Except.ok (clientId, clientSecret)
  match creds with
  | Except.error e => Except.error e
  | Except.ok _ =>
      match get_sharepoint_ctx completeUrl primary secondary with
      | Except.error e => Except.error e
      | Except.ok cw =>
          Except.ok { site := site, serverUrl := serverUrl, completeUrl := completeUrl,
                      ctx := cw.1, web := cw.2 }

/-- The process-wide Django settings consumed by `from_url`. -/
structure Settings where
  SHAREPOINT_SITE : String
  SHAREPOINT_SERVER_URL : String
  SHAREPOINT_CLIENT_ID : String
  SHAREPOINT_CLIENT_SECRET : String
deriving Repr, DecidableEq

/-- The `cls(...)` constructor call made inside `from_url`: construct with the
given site and server URL, no secrets file, and the settings credentials.  The
network oracles may depend on the target (site, server_url) pair. -/
def from_url_construct (cfg : Settings)
    (primary : String → String → Except PyError Web)
    (secondary : String → String → Except PyError Unit)
    (site serverUrl : String) : Except PyError Session :=
  SharepointClientAccess.init site serverUrl "" cfg.SHAREPOINT_CLIENT_ID
    cfg.SHAREPOINT_CLIENT_SECRET (fun _ => none) (primary site serverUrl)
    (secondary site serverUrl)

/-- `SharepointAPI.from_url`.  `urlMatch` is modelled from the spec:
`SHAREPOINT_URL_PATTERN` lives in `apps.core.global_constants`, outside this
repository; per the spec it is a fixed pattern with named capture groups
`site_name` and `server_url`, so matching is a function yielding the two
captured groups on success and `none` on no match.  A `SharepointError`
raised inside the `try` (notably by the constructor call itself) is caught
and the default construction runs; other exceptions propagate. -/
def from_url (cfg : Settings) (urlMatch : String → Option (String × String))
    (primary : String → String → Except PyError Web)
    (secondary : String → String → Except PyError Unit)
    (url : String) : Except PyError Session :=
  match urlMatch url with
  | some su =>
      match from_url_construct cfg primary secondary su.1 su.2 with
      | Except.ok s => Except.ok s
      | Except.error e =>
          if e.isSharepoint then
            from_url_construct cfg primary secondary cfg.SHAREPOINT_SITE
              cfg.SHAREPOINT_SERVER_URL
          else Except.error e
  | none =>
      from_url_construct cfg primary secondary cfg.SHAREPOINT_SITE
        cfg.SHAREPOINT_SERVER_URL

/-- Python `str.split(sep)` on character lists, for a non-empty separator:
scan left to right; at each position where `sep` is a prefix, cut a field and
continue after the separator.  `fuel` bounds the recursion; it is at least the
length of the remaining text at every call, so the base case with non-empty
text is never reached. -/
def pySplitChars (sep : List Char) : Nat → List Char → List Char → List (List Char)
  | 0, s, acc => [acc.reverse ++ s]
  | fuel + 1, s, acc =>
      match s with
      | [] => [acc.reverse]
      | c :: rest =>
          if sep.isPrefixOf (c :: rest) then
            acc.reverse :: pySplitChars sep fuel ((c :: rest).drop sep.length) []
          else
            pySplitChars sep fuel rest (c :: acc)

/-- Python `str.split(sep)`: `none` models the `ValueError` Python raises for
an empty separator. -/
def pySplit (s sep : List Char) : Option (List (List Char)) :=
  if sep = [] then none else some (pySplitChars sep s.length s [])

/-- `os.path.basename` for POSIX paths: the text after the last `/`. -/
def basename (path : String) : String :=
  ⟨(pySplitChars ['/'] path.data.length path.data []).getLastD path.data⟩

/-- The server-relative path computed by `SharepointAPI.get_file`:
`file_url.split(self.server_url)[-1]`, i.e. the last field of the split.
`none` when `server_url` is empty (Python raises `ValueError`).  A Python
split never yields an empty list, so the `getLastD` default is never used. -/
def get_file_server_relative_url (serverUrl fileUrl : String) : Option String :=
  (pySplit fileUrl.data serverUrl.data).map (fun parts => ⟨parts.getLastD fileUrl.data⟩)

/-- `SharepointAPI.get_file`: compute the server-relative path, then fetch the
file at that path.  `files` is the remote path-to-file mapping; a missing file
surfaces as the remote service's error. -/
def get_file (serverUrl : String) (files : String → Option SPFile) (fileUrl : String) :
    Except PyError SPFile :=
  match get_file_server_relative_url serverUrl fileUrl with
  | none => Except.error (PyError.valueError "empty separator")
  | some path =>
      match files path with
      | some f => Except.ok f
      | none => Except.error (PyError.sharepointError "file not found")

/-- The remote half of `upload_file` after the bytes are in hand: resolve or
create the target folder, upload the bytes into it, and commit with
`ctx.execute_query()`.  Everything here sits inside the source's
`try ... except SharepointError`, so a `SharepointError` becomes a logged
`None` while other exceptions (the `AttributeError` from an absent library)
propagate. -/
def upload_body (r : Remote) (documentLibraryName rootFolder fileName : String)
    (content : Bytes) : Except PyError (Option SPFile) × Remote × List String :=
  match create_folder r documentLibraryName rootFolder with
  | (Except.error e, r2, log) =>
      if e.isSharepoint then (Except.ok none, r2, log) else (Except.error e, r2, log)
  | (Except.ok folder, r2, log) =>
      let file : SPFile := { name := fileName, content := content, folderId := folder.id }
      (Except.ok (some file), r2, log ++ ["folder.upload_file", "ctx.execute_query"])

/-- `SharepointAPI.upload_file`.  If `file_path` exists locally, its bytes are
read and `file_name` is derived from the path when not supplied; otherwise,
when `file_content` is falsy (`None` or empty bytes), the source raises a
`SharepointError` which its own `except` clause catches and logs, returning
`None` with no remote request issued (empty log, state unchanged). -/
def upload_file (fs : LocalFS) (r : Remote)
    (documentLibraryName rootFolder filePath : String)
    (fileContent : Option Bytes) (fileName : String) :
    Except PyError (Option SPFile) × Remote × List String :=
  match fs.read filePath with
  | some bytes =>
      let fn := if fileName = "" then basename filePath else fileName
      upload_body r documentLibraryName rootFolder fn bytes
  | none =>
      if fileContent = none ∨ fileContent = some [] then
        (Except.ok none, r, [])
      else
        upload_body r documentLibraryName rootFolder fileName (fileContent.getD [])

/-- `SharepointAPI.upload_large_file`.  `os.path.getsize(file_path)` runs
before the `try` block, so a missing local file raises `OSError` to the
caller.  The guarded region (folder lookup by server-relative URL, chunked
upload session, commit) is the `remote` oracle applied to the
`f"{lib}/{root}"` relative URL: a `SharepointError` there is logged and
becomes `False`, success is `True`, and other exceptions propagate. -/
def upload_large_file (fs : LocalFS) (documentLibaryName rootFolder filePath : String)
    (remote : String → Except PyError Unit) : Except PyError Bool :=
  match fs.read filePath with
  | none => Except.error (PyError.osError "No such file or directory")
  | some _ =>
      let relativeUrl := documentLibaryName ++ "/" ++ rootFolder
      match remote relativeUrl with
      | Except.ok _ => Except.ok true
      | Except.error e => if e.isSharepoint then Except.ok false else Except.error e

/-- Whether `sep` occurs as a contiguous substring of `s`: some suffix of `s`
has `sep` as a prefix. -/
def occursB (sep : List Char) : List Char → Bool
  | [] => sep.isPrefixOf ([] : List Char)
  | c :: rest => sep.isPrefixOf (c :: rest) || occursB sep rest

/-- A list equals `[a]` exactly when it has length one and head `a`. -/
theorem eq_singleton_iff_length_head {α : Type} (xs : List α) (a : α) :
    xs = [a] ↔ xs.length = 1 ∧ xs.head? = some a := by
  cases xs with
  | nil => simp
  | cons b t =>
      cases t with
      | nil => simp
      | cons c u => simp

/-- Characterisation of a successful library lookup: the title filter yields
exactly the singleton of the returned library. -/
theorem gdl_some_iff (r : Remote) (name : String) (L : Library) :
    get_document_library_from_name r name = some L ↔
      r.libraries.filter (fun l => l.title = name) = [L] := by
  simp only [get_document_library_from_name]
  by_cases h : (r.libraries.filter (fun l => l.title = name)).length = 1
  · rw [if_pos h, eq_singleton_iff_length_head]
    simp [h]
  · rw [if_neg h]
    constructor
    · intro hx; exact absurd hx (by simp)
    · intro hx; rw [hx] at h; simp at h

/-- A library lookup with zero or several exact-title matches yields `none`. -/
theorem gdl_none_of_length_ne (r : Remote) (name : String)
    (h : (r.libraries.filter (fun l => l.title = name)).length ≠ 1) :
    get_document_library_from_name r name = none := by
  simp only [get_document_library_from_name]
  rw [if_neg h]

/-- Filtering a mapped list commutes with mapping when the map preserves the
filtered field. -/
theorem filter_title_map (g : Library → Library) (hg : ∀ l, (g l).title = l.title)
    (name : String) (libs : List Library) :
    (libs.map g).filter (fun l => l.title = name)
      = (libs.filter (fun l => l.title = name)).map g := by
  induction libs with
  | nil => rfl
  | cons a t ih =>
      by_cases h : a.title = name
      · simp [List.filter_cons, hg, h, ih]
      · simp [List.filter_cons, hg, h, ih]

/-- A filter over a list where no element satisfies the predicate is empty. -/
theorem filter_eq_nil_forall {α : Type} (p : α → Bool) (l : List α)
    (h : ∀ a ∈ l, p a = false) : l.filter p = [] := by
  induction l with
  | nil => rfl
  | cons a t ih =>
      simp [List.filter_cons, h a (by simp),
        ih (fun x hx => h x (by simp [hx]))]

/-- Under distinct folder names, the name filter has at most one match. -/
theorem filter_name_length_le_one (fs : List Folder) (n : String)
    (h : (fs.map Folder.name).Nodup) :
    (fs.filter (fun f => f.name = n)).length ≤ 1 := by
  induction fs with
  | nil => simp
  | cons a t ih =>
      simp only [List.map_cons, List.nodup_cons] at h
      by_cases ha : a.name = n
      · have ht : t.filter (fun f => f.name = n) = [] := by
          apply filter_eq_nil_forall
          intro f hf
          by_cases hfn : f.name = n
          · exfalso
            apply h.1
            rw [ha, ← hfn]
            exact List.mem_map_of_mem Folder.name hf
          · simp [hfn]
        simp [List.filter_cons, ha, ht]
      · rw [List.filter_cons, if_neg (by simp [ha])]
        exact ih h.2

/-- C3: for every library title and every remote library collection,
`get_document_library_from_name` returns the unique library whose title equals
the given name exactly when exactly one matches, and returns `none` (absent,
not an error) when zero or two-or-more libraries match. -/
theorem get_document_library_unique_or_absent (r : Remote) (name : String) :
    (∀ L : Library, get_document_library_from_name r name = some L ↔
        r.libraries.filter (fun l => l.title = name) = [L]) ∧
    ((r.libraries.filter (fun l => l.title = name)).length ≠ 1 →
      get_document_library_from_name r name = none) :=
  ⟨fun L => gdl_some_iff r name L, fun h => gdl_none_of_length_ne r name h⟩

theorem get_document_library_unique_or_absent_witness :
    ((Remote.mk [⟨0, "Docs", "", []⟩, ⟨1, "Docs", "", []⟩] 2).libraries.filter
        (fun l => l.title = "Docs")).length ≠ 1 ∧
    get_document_library_from_name (Remote.mk [⟨0, "Docs", "", []⟩, ⟨1, "Docs", "", []⟩] 2)
        "Docs" = none ∧
    get_document_library_from_name (Remote.mk [⟨0, "Img", "", []⟩, ⟨1, "Docs", "", []⟩] 2)
        "Img" = some ⟨0, "Img", "", []⟩ :=
  ⟨by decide,
   (get_document_library_unique_or_absent (Remote.mk [⟨0, "Docs", "", []⟩, ⟨1, "Docs", "", []⟩] 2)
       "Docs").2 (by decide),
   (get_document_library_unique_or_absent (Remote.mk [⟨0, "Img", "", []⟩, ⟨1, "Docs", "", []⟩] 2)
       "Img").1 ⟨0, "Img", "", []⟩ |>.mpr (by decide)⟩

/-- C5 counterexample: with no library titled "Docs" the lookup resolves to
absent, yet `find_folder` does not return that absence to the caller — the
attribute access on the absent library raises `AttributeError`. -/
theorem find_folder_absent_library_cx :
    get_document_library_from_name (Remote.mk [] 0) "Docs" = none ∧
    (find_folder (Remote.mk [] 0) "Docs" "Reports").1
        = Except.error (PyError.attributeError attrRootFolderMsg) :=
  ⟨rfl, rfl⟩

/-- C5 (amended): for every call of `find_folder` where the named document
library resolves to absent (zero or ambiguous matches), the call raises an
`AttributeError` (the `.root_folder` access on the absent library) to the
caller, before any folder filtering takes place — only the library request is
issued — rather than returning absent. -/
theorem find_folder_absent_library_raises (r : Remote) (libName folName : String)
    (h : get_document_library_from_name r libName = none) :
    find_folder r libName folName
      = (Except.error (PyError.attributeError attrRootFolderMsg), ["web.lists.filter"]) := by
  simp [find_folder, h]

theorem find_folder_absent_library_raises_witness :
    get_document_library_from_name (Remote.mk [⟨0, "A", "", []⟩, ⟨1, "A", "", []⟩] 2) "A" = none ∧
    find_folder (Remote.mk [⟨0, "A", "", []⟩, ⟨1, "A", "", []⟩] 2) "A" "Reports"
      = (Except.error (PyError.attributeError attrRootFolderMsg), ["web.lists.filter"]) :=
  ⟨by decide,
   find_folder_absent_library_raises (Remote.mk [⟨0, "A", "", []⟩, ⟨1, "A", "", []⟩] 2)
     "A" "Reports" (by decide)⟩

/-- C9: when two or more remote libraries already bear exactly the requested
title, `create_document_library` does not return any existing one — the
ambiguous lookup collapses to absent, so it creates and returns yet another
library with that same title, appended to the remote state, and the number of
libraries bearing the title grows by one.  The freshness hypothesis is the
model invariant that existing remote identities precede the id counter. -/
theorem create_document_library_adds_duplicate (r : Remote) (name desc : String)
    (h2 : 2 ≤ (r.libraries.filter (fun l => l.title = name)).length)
    (hfresh : ∀ l ∈ r.libraries, l.id < r.nextId) :
    (create_document_library r name desc).1.title = name ∧
    (create_document_library r name desc).1 ∉ r.libraries ∧
    (create_document_library r name desc).2.libraries
        = r.libraries ++ [(create_document_library r name desc).1] ∧
    ((create_document_library r name desc).2.libraries.filter
          (fun l => l.title = name)).length
      = (r.libraries.filter (fun l => l.title = name)).length + 1 := by
  have hne : (r.libraries.filter (fun l => l.title = name)).length ≠ 1 := by omega
  have hnone := gdl_none_of_length_ne r name hne
  have hcdl : create_document_library r name desc
      = (⟨r.nextId, name, desc, []⟩,
         ⟨r.libraries ++ [⟨r.nextId, name, desc, []⟩], r.nextId + 1⟩) := by
    simp [create_document_library, hnone]
  rw [hcdl]
  refine ⟨rfl, ?_, rfl, ?_⟩
  · intro hmem
    have := hfresh _ hmem
    simp at this
  · simp [List.filter_append]

theorem create_document_library_adds_duplicate_witness :
    2 ≤ ((Remote.mk [⟨0, "R", "", []⟩, ⟨1, "R", "", []⟩] 2).libraries.filter
          (fun l => l.title = "R")).length ∧
    (∀ l ∈ (Remote.mk [⟨0, "R", "", []⟩, ⟨1, "R", "", []⟩] 2).libraries, l.id < 2) ∧
    (create_document_library (Remote.mk [⟨0, "R", "", []⟩, ⟨1, "R", "", []⟩] 2) "R" "").1
        ∉ (Remote.mk [⟨0, "R", "", []⟩, ⟨1, "R", "", []⟩] 2).libraries ∧
    ((create_document_library (Remote.mk [⟨0, "R", "", []⟩, ⟨1, "R", "", []⟩] 2)
          "R" "").2.libraries.filter (fun l => l.title = "R")).length = 3 :=
  ⟨by decide, by decide,
   (create_document_library_adds_duplicate (Remote.mk [⟨0, "R", "", []⟩, ⟨1, "R", "", []⟩] 2)
       "R" "" (by decide) (by decide)).2.1,
   by
    have := (create_document_library_adds_duplicate
        (Remote.mk [⟨0, "R", "", []⟩, ⟨1, "R", "", []⟩] 2) "R" "" (by decide) (by decide)).2.2.2
    simpa using this⟩

/-- C4: `create_folder` is idempotent.  For every (library, folder) name pair
under which the library resolves uniquely, and with the remote well-formedness
invariant that folder names under a library root are distinct (the spec's data
model keys folders by name within a root), calling `create_folder` twice with
identical arguments yields the same folder as calling it once, and the second
call leaves the remote state unchanged — no duplicate folder is created. -/
theorem create_folder_idempotent (r : Remote) (libName folName : String) (L : Library)
    (hL : get_document_library_from_name r libName = some L)
    (hnd : (L.rootFolders.map Folder.name).Nodup) :
    (create_folder (create_folder r libName folName).2.1 libName folName).1
        = (create_folder r libName folName).1 ∧
    (create_folder (create_folder r libName folName).2.1 libName folName).2.1
        = (create_folder r libName folName).2.1 := by
  have hfil : r.libraries.filter (fun l => l.title = libName) = [L] :=
    (gdl_some_iff r libName L).mp hL
  cases hres : L.rootFolders.filter (fun f => f.name = folName) with
  | cons f t =>
      cases t with
      | nil =>
          have hff : find_folder r libName folName
              = (Except.ok (some f), ["web.lists.filter", "root_folder.folders.filter"]) := by
            simp [find_folder, hL, hres]
          have hcf : create_folder r libName folName
              = (Except.ok f, r, ["web.lists.filter", "root_folder.folders.filter"]) := by
            simp [create_folder, hff]
          simp [hcf]
      | cons f2 t2 =>
          exfalso
          have hle := filter_name_length_le_one L.rootFolders folName hnd
          rw [hres] at hle
          simp at hle
  | nil =>
      have hff : find_folder r libName folName
          = (Except.ok none, ["web.lists.filter", "root_folder.folders.filter"]) := by
        simp [find_folder, hL, hres]
      have hcf1 : (create_folder r libName folName).1
          = Except.ok (⟨r.nextId, folName⟩ : Folder) := by
        simp [create_folder, hff, hL, addFolder]
      have hcf2 : (create_folder r libName folName).2.1
          = Remote.mk
              (r.libraries.map (fun l =>
                if l.id = L.id then
                  { l with rootFolders := l.rootFolders ++ [⟨r.nextId, folName⟩] }
                else l))
              (r.nextId + 1) := by
        simp [create_folder, hff, hL, addFolder]
      have hfil1 : (Remote.mk
              (r.libraries.map (fun l =>
                if l.id = L.id then
                  { l with rootFolders := l.rootFolders ++ [⟨r.nextId, folName⟩] }
                else l))
              (r.nextId + 1)).libraries.filter (fun l => l.title = libName)
          = [{ L with rootFolders := L.rootFolders ++ [⟨r.nextId, folName⟩] }] := by
        have hg : ∀ l : Library,
            ((fun l : Library =>
              if l.id = L.id then
                { l with rootFolders := l.rootFolders ++ [(⟨r.nextId, folName⟩ : Folder)] }
              else l) l).title = l.title := by
          intro l
          by_cases h : l.id = L.id <;> simp [h]
        rw [show (Remote.mk
              (r.libraries.map (fun l =>
                if l.id = L.id then
                  { l with rootFolders := l.rootFolders ++ [⟨r.nextId, folName⟩] }
                else l))
              (r.nextId + 1)).libraries
            = r.libraries.map (fun l =>
                if l.id = L.id then
                  { l with rootFolders := l.rootFolders ++ [⟨r.nextId, folName⟩] }
                else l) from rfl]
        rw [filter_title_map _ hg libName r.libraries, hfil]
        simp
      have hgdl1 : get_document_library_from_name
            (Remote.mk
              (r.libraries.map (fun l =>
                if l.id = L.id then
                  { l with rootFolders := l.rootFolders ++ [⟨r.nextId, folName⟩] }
                else l))
              (r.nextId + 1)) libName
          = some { L with rootFolders := L.rootFolders ++ [⟨r.nextId, folName⟩] } :=
        (gdl_some_iff _ _ _).mpr hfil1
      have hresfil1 : ({ L with rootFolders := L.rootFolders ++ [⟨r.nextId, folName⟩] }
              : Library).rootFolders.filter (fun f => f.name = folName)
          = [⟨r.nextId, folName⟩] := by
        simp [List.filter_append, hres]
      have hff1 : find_folder
            (Remote.mk
              (r.libraries.map (fun l =>
                if l.id = L.id then
                  { l with rootFolders := l.rootFolders ++ [⟨r.nextId, folName⟩] }
                else l))
              (r.nextId + 1)) libName folName
          = (Except.ok (some ⟨r.nextId, folName⟩),
             ["web.lists.filter", "root_folder.folders.filter"]) := by
        simp [find_folder, hgdl1, hresfil1]
      rw [hcf1, hcf2]
      simp [create_folder, hff1]

theorem create_folder_idempotent_witness :
    get_document_library_from_name (Remote.mk [⟨0, "Docs", "", []⟩] 1) "Docs"
        = some ⟨0, "Docs", "", []⟩ ∧
    ((Library.mk 0 "Docs" "" []).rootFolders.map Folder.name).Nodup ∧
    ((create_folder (create_folder (Remote.mk [⟨0, "Docs", "", []⟩] 1) "Docs" "F").2.1
          "Docs" "F").1
        = (create_folder (Remote.mk [⟨0, "Docs", "", []⟩] 1) "Docs" "F").1 ∧
      (create_folder (create_folder (Remote.mk [⟨0, "Docs", "", []⟩] 1) "Docs" "F").2.1
          "Docs" "F").2.1
        = (create_folder (Remote.mk [⟨0, "Docs", "", []⟩] 1) "Docs" "F").2.1) :=
  ⟨by decide, by decide,
   create_folder_idempotent (Remote.mk [⟨0, "Docs", "", []⟩] 1) "Docs" "F"
     ⟨0, "Docs", "", []⟩ (by decide) (by decide)⟩

/-- C1 counterexample: calling `upload_file` with a path that exists nowhere
locally and `file_content = None` does not propagate the raised
`SharepointError` to the caller — the function's own `except` clause catches
it, and the call returns `None` normally (with no remote request and the
state unchanged). -/
theorem upload_file_input_error_not_propagated_cx :
    upload_file (LocalFS.mk []) (Remote.mk [] 0) "Lib" "Folder" "/data/missing.csv" none ""
        = (Except.ok none, Remote.mk [] 0, []) ∧
    (upload_file (LocalFS.mk []) (Remote.mk [] 0) "Lib" "Folder" "/data/missing.csv" none "").1
        ≠ Except.error (PyError.sharepointError
            "--- Need filename/ file_content when passing bytes to be uploaded ---") :=
  ⟨rfl, fun h => nomatch h⟩

/-- C1 (amended): for every call of `upload_file` where `file_path` names no
existing local file and `file_content` is absent (`None`/empty), the internal
`InputError` (`SharepointError`) is raised but caught and logged by the
function's own handler, so the call returns absent (`None`) to the caller;
no network call is performed and the remote state is unchanged. -/
theorem upload_file_input_error_swallowed (fs : LocalFS) (r : Remote)
    (libName rootFolder filePath fileName : String) (fileContent : Option Bytes)
    (hp : fs.read filePath = none)
    (hc : fileContent = none ∨ fileContent = some []) :
    upload_file fs r libName rootFolder filePath fileContent fileName
      = (Except.ok none, r, []) := by
  simp only [upload_file, hp]
  rw [if_pos hc]

theorem upload_file_input_error_swallowed_witness :
    (LocalFS.mk [("/data/a.csv", [7])]).read "/data/b.csv" = none ∧
    ((some ([] : Bytes) = none) ∨ (some ([] : Bytes) = some [])) ∧
    upload_file (LocalFS.mk [("/data/a.csv", [7])]) (Remote.mk [] 3) "Lib" "F"
        "/data/b.csv" (some []) "out.csv"
      = (Except.ok none, Remote.mk [] 3, []) :=
  ⟨rfl, Or.inr rfl,
   upload_file_input_error_swallowed (LocalFS.mk [("/data/a.csv", [7])]) (Remote.mk [] 3)
     "Lib" "F" "/data/b.csv" "out.csv" (some []) rfl (Or.inr rfl)⟩

/-- C2: in session construction, a failing primary check (fetching the web
root) propagates its error to the caller, so construction fails; whereas if
the primary check succeeds, a failing secondary check (fetching the site
object, whose remote failures are `SharepointError` per the spec's error
model) is swallowed and a usable session — the context built for the complete
URL together with the web root — is still returned, exactly as when the
secondary check succeeds. -/
theorem get_sharepoint_ctx_primary_load_bearing (completeUrl : String) (w : Web)
    (m : String) (secondary : Except PyError Unit) (e : PyError) :
    get_sharepoint_ctx completeUrl (Except.error e) secondary = Except.error e ∧
    get_sharepoint_ctx completeUrl (Except.ok w)
        (Except.error (PyError.sharepointError m))
      = Except.ok (⟨completeUrl⟩, w) ∧
    get_sharepoint_ctx completeUrl (Except.ok w) (Except.ok ())
      = Except.ok (⟨completeUrl⟩, w) :=
  ⟨rfl, rfl, rfl⟩

/-- C8: whenever no secrets-file path is given and at least one of client id
and client secret is empty, construction fails with the missing-credentials
error before any session or context is built — the outcome is this error for
every secrets, primary and secondary oracle, so no network call can have
influenced it. -/
theorem init_missing_credentials (site serverUrl clientId clientSecret : String)
    (secrets : String → Option (List (String × SecretsEntry)))
    (primary : Except PyError Web) (secondary : Except PyError Unit)
    (h : clientId = "" ∨ clientSecret = "") :
    SharepointClientAccess.init site serverUrl "" clientId clientSecret secrets
        primary secondary
      = Except.error (PyError.configError missingCredentialsMsg) := by
  simp only [SharepointClientAccess.init]
  rw [if_neg (by simp), if_pos h]

theorem init_missing_credentials_witness :
    (("" : String) = "" ∨ ("x" : String) = "") ∧
    SharepointClientAccess.init "Eng" "https://c.ex" "" "" "x" (fun _ => none)
        (Except.ok ⟨0⟩) (Except.ok ())
      = Except.error (PyError.configError missingCredentialsMsg) :=
  ⟨Or.inl rfl,
   init_missing_credentials "Eng" "https://c.ex" "" "x" (fun _ => none)
     (Except.ok ⟨0⟩) (Except.ok ()) (Or.inl rfl)⟩

/-- C10: for every call of `upload_large_file` where `file_path` names no
existing local file, the local size computation (`os.path.getsize`) precedes
the guarded region, so the call raises `OSError` to the caller rather than
logging and returning `False`; the false-on-failure policy covers only
remote (`SharepointError`) failures arising after the size is obtained. -/
theorem upload_large_file_missing_path_raises (fs : LocalFS)
    (libName rootFolder filePath : String) (remote : String → Except PyError Unit)
    (b : Bytes) (m : String) :
    (fs.read filePath = none →
        upload_large_file fs libName rootFolder filePath remote
          = Except.error (PyError.osError "No such file or directory")) ∧
    (fs.read filePath = some b →
        remote (libName ++ "/" ++ rootFolder)
            = Except.error (PyError.sharepointError m) →
        upload_large_file fs libName rootFolder filePath remote = Except.ok false) := by
  constructor
  · intro h
    simp [upload_large_file, h]
  · intro h hr
    simp [upload_large_file, h, hr, PyError.isSharepoint]

theorem upload_large_file_missing_path_raises_witness :
    upload_large_file (LocalFS.mk [("/a/f.bin", [1, 2, 3])]) "Lib" "F" "/nope"
        (fun _ => Except.ok ())
      = Except.error (PyError.osError "No such file or directory") ∧
    upload_large_file (LocalFS.mk [("/a/f.bin", [1, 2, 3])]) "Lib" "F" "/a/f.bin"
        (fun _ => Except.error (PyError.sharepointError "503"))
      = Except.ok false :=
  ⟨(upload_large_file_missing_path_raises (LocalFS.mk [("/a/f.bin", [1, 2, 3])])
      "Lib" "F" "/nope" (fun _ => Except.ok ()) [] "").1 rfl,
   (upload_large_file_missing_path_raises (LocalFS.mk [("/a/f.bin", [1, 2, 3])])
      "Lib" "F" "/a/f.bin" (fun _ => Except.error (PyError.sharepointError "503"))
      [1, 2, 3] "503").2 rfl rfl⟩

/-- A list is a boolean prefix of itself followed by anything. -/
theorem isPrefixOf_append_self (a b : List Char) : a.isPrefixOf (a ++ b) = true := by
  induction a with
  | nil => simp [List.isPrefixOf]
  | cons x xs ih => simp [List.isPrefixOf, ih]

/-- When the separator never occurs in the text, a Python split scan produces
the single field made of the accumulator and the remaining text (for every
fuel value, since the fuel base case agrees). -/
theorem pySplitChars_no_occurrence (sep : List Char) (fuel : Nat) :
    ∀ (s acc : List Char), occursB sep s = false →
      pySplitChars sep fuel s acc = [acc.reverse ++ s] := by
  induction fuel with
  | zero => intro s acc _; rfl
  | succ n ih =>
      intro s acc hocc
      cases s with
      | nil => simp [pySplitChars]
      | cons c rest =>
          simp only [occursB, Bool.or_eq_false_iff] at hocc
          simp only [pySplitChars, hocc.1, Bool.false_eq_true, if_false]
          rw [ih rest (c :: acc) hocc.2]
          simp

/-- A Python split of `sep ++ t`, when `sep` does not occur in `t`, yields the
empty leading field (after the accumulator) and then `t`. -/
theorem pySplitChars_sep_append (sep t acc : List Char) (hsep : sep ≠ [])
    (hocc : occursB sep t = false) (n : Nat) :
    pySplitChars sep (n + 1) (sep ++ t) acc = [acc.reverse, t] := by
  cases sep with
  | nil => exact absurd rfl hsep
  | cons d ds =>
      have hpre := isPrefixOf_append_self (d :: ds) t
      simp only [List.cons_append] at hpre
      simp only [pySplitChars, List.cons_append, hpre, if_true]
      rw [show ((d :: (ds ++ t)).drop (d :: ds).length) = t from by
        have := List.drop_left (d :: ds) t
        simp only [List.cons_append] at this
        exact this]
      rw [pySplitChars_no_occurrence (d :: ds) n t [] hocc]
      simp

/-- C6 counterexample: with `server_url` occurring in a non-prefix position,
the path `get_file` computes is neither `file_url` with a leading `server_url`
removed (the URL does not start with it) nor `file_url` unchanged — the split
keeps only the text after the occurrence. -/
theorem get_file_path_not_suffix_cx :
    ("https://c.ex".data.isPrefixOf "/x/https://c.ex/doc".data) = false ∧
    get_file_server_relative_url "https://c.ex" "/x/https://c.ex/doc" = some "/doc" ∧
    (("/doc" : String) ≠ "/x/https://c.ex/doc") :=
  ⟨by decide, by decide, by decide⟩

/-- C6 (amended): `get_file` passes to the fetch the last field of splitting
`file_url` on the session's (non-empty) `server_url`.  Hence the path equals
`file_url` with its leading `server_url` removed when `file_url` starts with
`server_url` and `server_url` does not occur in the remainder, and equals
`file_url` unchanged when `server_url` occurs nowhere in `file_url`; when
`server_url` occurs elsewhere, the path is the suffix after its last
occurrence (see the counterexample), not `file_url` unchanged. -/
theorem get_file_path_last_split (serverUrl fileUrl : String) (h : serverUrl ≠ "") :
    (occursB serverUrl.data fileUrl.data = false →
        get_file_server_relative_url serverUrl fileUrl = some fileUrl) ∧
    (∀ t : List Char, fileUrl.data = serverUrl.data ++ t →
        occursB serverUrl.data t = false →
        get_file_server_relative_url serverUrl fileUrl = some (String.mk t)) := by
  have hd : serverUrl.data ≠ [] := fun hnil => h (congrArg String.mk hnil)
  constructor
  · intro hocc
    simp only [get_file_server_relative_url, pySplit]
    rw [if_neg hd]
    rw [pySplitChars_no_occurrence serverUrl.data fileUrl.data.length fileUrl.data [] hocc]
    simp
  · intro t ht hocc
    simp only [get_file_server_relative_url, pySplit]
    rw [if_neg hd, ht]
    obtain ⟨d, ds, hsep⟩ : ∃ d ds, serverUrl.data = d :: ds := by
      cases hse : serverUrl.data with
      | nil => exact absurd hse hd
      | cons d ds => exact ⟨d, ds, rfl⟩
    rw [hsep] at hocc
    rw [hsep]
    rw [show ((d :: ds) ++ t).length = (ds ++ t).length + 1 from by simp]
    rw [pySplitChars_sep_append (d :: ds) t [] (by simp) hocc ((ds ++ t).length)]
    simp

theorem get_file_path_last_split_witness :
    ("ab" : String) ≠ "" ∧
    "abcd".data = "ab".data ++ ['c', 'd'] ∧
    occursB "ab".data ['c', 'd'] = false ∧
    get_file_server_relative_url "ab" "abcd" = some (String.mk ['c', 'd']) ∧
    occursB "xy".data "abcd".data = false ∧
    get_file_server_relative_url "xy" "abcd" = some "abcd" :=
  ⟨by decide, by decide, by decide,
   (get_file_path_last_split "ab" "abcd" (by decide)).2 ['c', 'd'] (by decide) (by decide),
   by decide,
   (get_file_path_last_split "xy" "abcd" (by decide)).1 (by decide)⟩

/-- C7 counterexample: the URL matches the pattern (the matcher yields
("Engineering", "https://contoso.example")), yet `from_url` does not return
the extracted pair — session construction with the extracted pair fails with
a `SharepointError`, which the `try` of `from_url` catches, so the configured
default pair is used instead. -/
theorem from_url_matched_url_falls_back_cx :
    (fun u : String =>
        if u = "https://contoso.example/sites/Engineering/Docs/f.txt" then
          some (("Engineering", "https://contoso.example") : String × String)
        else none) "https://contoso.example/sites/Engineering/Docs/f.txt"
      = some ("Engineering", "https://contoso.example") ∧
    from_url ⟨"Default", "https://default.ex", "id", "sec"⟩
        (fun u =>
          if u = "https://contoso.example/sites/Engineering/Docs/f.txt" then
            some (("Engineering", "https://contoso.example") : String × String)
          else none)
        (fun site _ =>
          if site = "Engineering" then Except.error (PyError.sharepointError "401")
          else Except.ok ⟨7⟩)
        (fun _ _ => Except.ok ())
        "https://contoso.example/sites/Engineering/Docs/f.txt"
      = Except.ok ⟨"Default", "https://default.ex", "https://default.ex/sites/Default",
          ⟨"https://default.ex/sites/Default"⟩, ⟨7⟩⟩ ∧
    (("Default" : String) ≠ "Engineering") :=
  ⟨rfl, rfl, by decide⟩

/-- C7 (amended): when the URL matches, `from_url` attempts construction with
the extracted (site_name, server_url) pair: if that construction succeeds the
returned session carries exactly the extracted pair, but if it fails with a
`SharepointError` the call falls back to constructing with the configured
default pair (so a matched URL can still yield the default pair); on no match
the default pair is used.  With the pattern modelled as a total matcher, the
spec's "any matching error" case cannot arise. -/
theorem from_url_resolution (cfg : Settings)
    (urlMatch : String → Option (String × String))
    (primary : String → String → Except PyError Web)
    (secondary : String → String → Except PyError Unit)
    (url site serverUrl : String) (s : Session) (m : String) :
    (from_url_construct cfg primary secondary site serverUrl = Except.ok s →
        s.site = site ∧ s.serverUrl = serverUrl) ∧
    (urlMatch url = some (site, serverUrl) →
        from_url_construct cfg primary secondary site serverUrl = Except.ok s →
        from_url cfg urlMatch primary secondary url = Except.ok s) ∧
    (urlMatch url = some (site, serverUrl) →
        from_url_construct cfg primary secondary site serverUrl
          = Except.error (PyError.sharepointError m) →
        from_url cfg urlMatch primary secondary url
          = from_url_construct cfg primary secondary cfg.SHAREPOINT_SITE
              cfg.SHAREPOINT_SERVER_URL) ∧
    (urlMatch url = none →
        from_url cfg urlMatch primary secondary url
          = from_url_construct cfg primary secondary cfg.SHAREPOINT_SITE
              cfg.SHAREPOINT_SERVER_URL) := by
  refine ⟨?_, ?_, ?_, ?_⟩
  · intro hok
    simp only [from_url_construct, SharepointClientAccess.init] at hok
    rw [if_neg (by simp)] at hok
    by_cases hc : cfg.SHAREPOINT_CLIENT_ID = "" ∨ cfg.SHAREPOINT_CLIENT_SECRET = ""
    · rw [if_pos hc] at hok
      simp at hok
    · rw [if_neg hc] at hok
      cases hg : get_sharepoint_ctx (serverUrl ++ "/sites/" ++ site)
          (primary site serverUrl) (secondary site serverUrl) with
      | error e => rw [hg] at hok; simp at hok
      | ok cw =>
          rw [hg] at hok
          simp at hok
          rw [← hok]
          exact ⟨rfl, rfl⟩
  · intro hm hok
    simp [from_url, hm, hok]
  · intro hm herr
    simp [from_url, hm, herr, PyError.isSharepoint]
  · intro hm
    simp [from_url, hm]

theorem from_url_resolution_witness :
    (fun _ : String => some (("Eng", "https://e.ex") : String × String)) "u"
        = some ("Eng", "https://e.ex") ∧
    from_url ⟨"Def", "https://d.ex", "id", "sec"⟩
        (fun _ => some (("Eng", "https://e.ex") : String × String))
        (fun _ _ => Except.ok ⟨1⟩) (fun _ _ => Except.ok ()) "u"
      = Except.ok ⟨"Eng", "https://e.ex", "https://e.ex/sites/Eng",
          ⟨"https://e.ex/sites/Eng"⟩, ⟨1⟩⟩ :=
  ⟨rfl,
   (from_url_resolution ⟨"Def", "https://d.ex", "id", "sec"⟩
       (fun _ => some (("Eng", "https://e.ex") : String × String))
       (fun _ _ => Except.ok ⟨1⟩) (fun _ _ => Except.ok ()) "u" "Eng" "https://e.ex"
       ⟨"Eng", "https://e.ex", "https://e.ex/sites/Eng", ⟨"https://e.ex/sites/Eng"⟩, ⟨1⟩⟩
       "").2.1 rfl rfl⟩
